import Mathlib

/-!
Verification development for the DPS_CONFIG_DEV publish-pipeline hooks.

The repository consists of three Shotgun Toolkit publish hooks for Maya
(publish_object_geo.py, publish_shader.py, upload_version.py) and one
GitHub-workflow script (updateConfig.py).  The definitions below are a
shallow embedding of the Python code: external host state (Maya scene,
framework items, templates, remote API) is passed in explicitly, and the
side effects each hook performs are recorded as an explicit effect trace.
-/

namespace DpsConfig

/-! ### Python value semantics used by the hooks

The geometry hook twice writes the guard expression
`'TEXTURE' or 'SHADING' in step_name` (publish_object_geo.py lines 162 and
405).  In Python this parses as `'TEXTURE' or ('SHADING' in step_name)`:
`or` short-circuits on the truthiness of its left operand. -/

inductive PyVal where
  | pystr (s : String)
  | pybool (b : Bool)
deriving DecidableEq

/-- Python truthiness: a string is truthy when non-empty. -/
def pyTruthy : PyVal → Bool
  | .pystr s => !s.isEmpty
  | .pybool b => b

/-- Python `a or b`: returns `a` when `a` is truthy, otherwise evaluates `b`. -/
def pyOr (a : PyVal) (b : Unit → PyVal) : PyVal :=
  if pyTruthy a then a else b ()

/-- Boolean test: the first list is an initial segment of the second. -/
def charsPref : List Char → List Char → Bool
  | [], _ => true
  | _ :: _, [] => false
  | a :: as, b :: bs => a == b && charsPref as bs

/-- Boolean test: the first list occurs contiguously inside the second. -/
def charsSub (needle : List Char) : List Char → Bool
  | [] => needle.isEmpty
  | c :: t => charsPref needle (c :: t) || charsSub needle t

/-- Python `needle in hay` on strings (substring containment). -/
def pyInStr (needle hay : String) : PyVal :=
  .pybool (charsSub needle.data hay.data)

/-- The guard expression `'TEXTURE' or 'SHADING' in step_name` as written in
publish_object_geo.py (lines 162 and 405), with Python operator precedence. -/
def texShadingGuard (step_name : String) : PyVal :=
  pyOr (.pystr "TEXTURE") (fun _ => pyInStr "SHADING" step_name)

/-! ### Python name resolution

A Python function body resolves each global name at call time against the
module namespace (and builtins); an unbound name raises NameError. -/

inductive PyError where
  | nameError (name : String)
deriving DecidableEq

/-- Look a global name up in a module namespace. -/
def pyResolveName (names : List String) (n : String) : Except PyError Unit :=
  if n ∈ names then .ok () else .error (.nameError n)

/-- Resolve a sequence of global names in order, stopping at the first
unbound one. -/
def runNameLookups (names : List String) : List String → Except PyError Unit
  | [] => .ok ()
  | n :: rest =>
    match pyResolveName names n with
    | .ok _ => runNameLookups names rest
    | .error e => .error e

/-- The module-level names bound in publish_object_geo.py: imports (lines
11-19), the plugin class, and every top-level function definition. -/
def publishObjectGeoModuleNames : List String :=
  ["os", "cmds", "mel", "sgtk", "six", "QtCore", "QtGui", "HookBaseClass",
   "MayaObjectGeometryPublishPlugin",
   "_find_scene_animation_range", "_geo_has_animation", "_session_path",
   "_get_save_as_action", "_get_root_from_first_mesh", "_get_root_node",
   "_get_selected_mesh_shapes", "_get_shape_transform",
   "_expand_face_components", "_parse_face_indices",
   "_connected_shading_groups", "_members_for_sg",
   "_is_member_object_level_for_shape", "_collect_face_assignments_for_shape",
   "_assign_faces_to_sg", "_remove_object_level_membership",
   "_convert_object_level_materials_to_face_sets",
   "bake_facesets_for_selection"]

/-- publish_object_geo.py lines 829-846.  `shapes` is the result of
`_get_selected_mesh_shapes()` (the mesh shapes the current selection
yields).  When the shape list is empty the function returns `[]`; otherwise
the loop body calls the global `convert_object_level_materials_to_face_sets`,
whose name is resolved against the module namespace on the first
iteration. -/
def bake_facesets_for_selection (shapes : List String) :
    Except PyError (List String) :=
  if shapes.isEmpty then .ok []
  else
    match pyResolveName publishObjectGeoModuleNames
        "convert_object_level_materials_to_face_sets" with
    | .error e => .error e
    | .ok _ => .ok shapes

/-! ### Effect traces of the publish methods -/

inductive Effect where
  | ensureFolder (folder : String)
  | selectObject
  | bakeCall
  | selectShadingGroups
  | logDebug (msg : String)
  | logError (msg : String)
  | runExport (ok : Bool)
  | basePublish
  | restoreSelection
  | sgUpdate (entity : String) (id : Nat) (field : String) (value : String)
deriving DecidableEq

def isSgUpdate : Effect → Bool
  | .sgUpdate _ _ _ _ => true
  | _ => false

def isExportEffect : Effect → Bool
  | .runExport _ => true
  | _ => false

/-- External state and outcomes feeding one run of
`MayaObjectGeometryPublishPlugin.publish` (publish_object_geo.py 354-446). -/
structure GeoPublishInput where
  itemType : String
  stepName : String
  selectionShapes : List String
  selectionHead : String
  taskId : Nat
  publishPath : String
  publishFolder : String
  hasAnimation : Bool
  startFrame : Int
  endFrame : Int
  writeFaceSets : Bool
  writeUvs : Bool
  writeUvSets : Bool
  writeColorSets : Bool
  exportOk : Bool
  exportErrMsg : String

/-- The alembic argument list built by the geometry publish method
(publish_object_geo.py lines 381-423). -/
def alembicArgs (inp : GeoPublishInput) : List String :=
  let args := ["-renderableOnly", "-worldSpace", "-dataformat", "ogawa"]
  let args := args ++ (if inp.writeFaceSets then ["-writeFaceSets"] else [])
  let args := args ++ (if inp.writeUvs then ["-uvWrite"] else [])
  let args := args ++ (if inp.writeUvSets then ["-writeUVSets"] else [])
  let args := args ++ (if inp.writeColorSets then ["-writeColorSets"] else [])
  let args := args ++
    (if inp.itemType ≠ "maya.session.geometries" then
      ["-root", inp.selectionHead]
    else [])
  let args :=
    if inp.hasAnimation then
      ("-frameRange " ++ toString (inp.startFrame - 50) ++ " " ++
        toString inp.endFrame) :: args
    else args
  args ++ ["-file " ++ (inp.publishPath.replace "\\" "/")]

/-- The mel command string `AbcExport -j "..."` (line 427). -/
def abcExportCmd (inp : GeoPublishInput) : String :=
  "AbcExport -j \"" ++ String.intercalate " " (alembicArgs inp) ++ "\""

/-- Lines 429-446 of publish_object_geo.py: the try/except around
`mel.eval`, then base-class publish, selection restore and the remote Task
status update. -/
def geoExportTail (inp : GeoPublishInput) (pre : List Effect) :
    List Effect × Option PyError :=
  let pre := pre ++ [Effect.logDebug ("Executing command: " ++ abcExportCmd inp)]
  if inp.exportOk then
    (pre ++ [Effect.runExport true, Effect.basePublish, Effect.restoreSelection,
      Effect.sgUpdate "Task" inp.taskId "sg_status_list" "rev"], none)
  else
    (pre ++ [Effect.runExport false,
      Effect.logError ("Failed to export Geometry: " ++ inp.exportErrMsg)], none)

/-- `MayaObjectGeometryPublishPlugin.publish` (publish_object_geo.py
354-446) as an effect trace plus the uncaught exception, if any.  For a
per-object item the method selects the object and, under the guard
`'TEXTURE' or 'SHADING' in publisher.context.step['name']`, calls
`bake_facesets_for_selection`; an exception from that call is not caught. -/
def geoPublish (inp : GeoPublishInput) : List Effect × Option PyError :=
  let pre := [Effect.ensureFolder inp.publishFolder]
  if inp.itemType ≠ "maya.session.geometries" then
    let pre := pre ++ [Effect.selectObject]
    if pyTruthy (texShadingGuard inp.stepName) then
      let pre := pre ++ [Effect.bakeCall]
      match bake_facesets_for_selection inp.selectionShapes with
      | .error e => (pre, some e)
      | .ok _ => geoExportTail inp pre
    else
      geoExportTail inp pre
  else
    geoExportTail inp pre

/-- External state and outcomes feeding one run of
`MayaObjectShaderPublishPlugin.publish` (publish_shader.py 241-290). -/
structure ShaderPublishInput where
  taskId : Nat
  publishFolder : String
  exportOk : Bool
  exportErrMsg : String

/-- `MayaObjectShaderPublishPlugin.publish` (publish_shader.py 241-290) as
an effect trace: folder creation, shading-group selection, the try/except
around `cmds.file(..., exportSelected=True)`, then base-class publish,
selection restore and the remote Task status update. -/
def shaderPublish (inp : ShaderPublishInput) : List Effect × Option PyError :=
  let pre := [Effect.ensureFolder inp.publishFolder, Effect.selectShadingGroups,
    Effect.logDebug "Executing shaders export command:"]
  if inp.exportOk then
    (pre ++ [Effect.runExport true, Effect.basePublish, Effect.restoreSelection,
      Effect.sgUpdate "Task" inp.taskId "sg_status_list" "rev"], none)
  else
    (pre ++ [Effect.runExport false,
      Effect.logError ("Failed to export Shaders: " ++ inp.exportErrMsg)], none)

/-! ### Validation of the geometry hook -/

/-- Python falsiness of the session path: `cmds.file(query=True, sn=True)`
may return None or an empty string, and `if not path:` catches both. -/
def pyFalsyPath : Option String → Bool
  | none => true
  | some s => s.isEmpty

/-- Python slice `s[:-n]` for `n > 0`: drop the last `n` characters. -/
def pyDropRight (n : Nat) (s : String) : String :=
  String.mk (s.data.take (s.data.length - n))

/-- Characters of a reversed path up to the first separator. -/
def takeUntilSep : List Char → List Char
  | [] => []
  | c :: t => if c = '/' ∨ c = '\\' then [] else c :: takeUntilSep t

/-- `os.path.basename`: the component after the last path separator. -/
def osBasename (p : String) : String :=
  String.mk ((takeUntilSep p.data.reverse).reverse)

inductive ValidateError where
  | notSaved
  | noGeometry
  | missingTemplateKeys (path : String) (keys : List String)
deriving DecidableEq

/-- The human-readable message each validation error is raised with
(publish_object_geo.py lines 293, 302-306, 331-334). -/
def validateErrorMessage : ValidateError → String
  | .notSaved => "The Maya session has not been saved."
  | .noGeometry =>
    "Validation failed because there is no geometry in the scene " ++
    "to be exported. You can uncheck this plugin or create " ++
    "geometry to export to avoid this error."
  | .missingTemplateKeys p keys =>
    "Work file " ++ p ++ " missing keys required for the " ++
    "publish template: " ++ String.intercalate ", " keys

/-- External state and template results feeding one run of
`MayaObjectGeometryPublishPlugin.validate` (publish_object_geo.py 274-352). -/
structure GeoValidateInput where
  sessionPath : Option String
  normalizedPath : String
  hasGeometry : Bool
  collectorPath : String
  missingKeys : List String
  appliedPath : String
  versionField : Option Nat
  baseValidate : Bool

/-- The item properties written by a successful validate run, and the value
it returns (the base-class validation result). -/
structure GeoValidateOutcome where
  publishName : String
  path : String
  publishPath : String
  publishVersion : Option Nat
  result : Bool
deriving DecidableEq

/-- `MayaObjectGeometryPublishPlugin.validate` (publish_object_geo.py
274-352): raise on an unsaved session, on a scene without non-intermediate
geometry, or on missing publish-template keys; otherwise store the publish
path resolved from the template in the item properties and delegate to the
base-class validation. -/
def geoValidate (inp : GeoValidateInput) : Except ValidateError GeoValidateOutcome :=
  if pyFalsyPath inp.sessionPath then .error .notSaved
  else if !inp.hasGeometry then .error .noGeometry
  else
    let publish_name := pyDropRight 9 (osBasename inp.collectorPath)
    if !inp.missingKeys.isEmpty then
      .error (.missingTemplateKeys inp.normalizedPath inp.missingKeys)
    else
      .ok { publishName := publish_name
            path := inp.appliedPath
            publishPath := inp.appliedPath
            publishVersion := inp.versionField
            result := inp.baseValidate }

/-! ### Animation detection (`_geo_has_animation`)

The Maya commands `listRelatives`, `listAnimatable` and `listConnections`
return None rather than an empty list when there is nothing to report; the
scene model stores the underlying lists and `mayaOpt` recovers the None
convention. -/

/-- Maya command result convention: an empty result is returned as None. -/
def mayaOpt (l : List String) : Option (List String) :=
  if l.isEmpty then none else some l

/-- A Maya scene as seen by `_geo_has_animation`: descendants
(`listRelatives(node, ad=True, f=True)`), node types, animatable attribute
lists per transform, keyframe counts per attribute, and incoming
connections of each mesh's inMesh attribute (`listConnections(attr, d=0)`). -/
structure Scene where
  descendants : String → List String
  nodeType : String → String
  animatable : String → List String
  keyframeCount : String → Nat
  inMeshConnections : String → List String

/-- The per-node test of the loop body of `_geo_has_animation`
(publish_object_geo.py 477-494): a transform with an animatable attribute
holding at least one keyframe, or a mesh whose inMesh attribute has an
incoming connection. -/
def nodeAnimSignal (sc : Scene) (i : String) : Bool :=
  if sc.nodeType i = "transform" then
    match mayaOpt (sc.animatable i) with
    | none => false
    | some attrs => attrs.any (fun a => 0 < sc.keyframeCount a)
  else if sc.nodeType i = "mesh" then
    (mayaOpt (sc.inMeshConnections i)).isSome
  else false

/-- `_geo_has_animation` (publish_object_geo.py 471-498): collect all
descendants; when that result is None the loop is skipped and False is
returned; otherwise the node is prepended and the loop returns True on the
first node with an animation signal. -/
def geo_has_animation (sc : Scene) (node : String) : Bool :=
  match mayaOpt (sc.descendants node) with
  | none => false
  | some nodos => (node :: nodos).any (nodeAnimSignal sc)

/-- Modelled from the claim text, for comparison with the source: True iff
the node or one of its descendants carries an animation signal, with no
descendant-count precondition. -/
def geo_has_animation_claimed (sc : Scene) (node : String) : Bool :=
  (node :: sc.descendants node).any (nodeAnimSignal sc)

/-- A scene holding a single mesh shape with no descendants whose inMesh
attribute has an incoming connection. -/
def meshOnlyScene : Scene where
  descendants := fun _ => []
  nodeType := fun _ => "mesh"
  animatable := fun _ => []
  keyframeCount := fun _ => 0
  inMeshConnections := fun _ => ["polyCube1"]

/-! ### Face-set conversion (`_convert_object_level_materials_to_face_sets`) -/

/-- The assignment loop of `_convert_object_level_materials_to_face_sets`
(publish_object_geo.py 816-824): for each object-level shading group, break
if no faces remain, otherwise assign all remaining faces to it and remove
them from the remaining set.  Returns the per-shading-group face
assignments performed, in order. -/
def convertLoop (remaining : Finset ℕ) : List String → List (String × Finset ℕ)
  | [] => []
  | sg :: rest =>
    if remaining = ∅ then []
    else
      let to_assign := remaining
      (sg, to_assign) :: convertLoop (remaining \ to_assign) rest

/-- The face assignments `_convert_object_level_materials_to_face_sets`
performs on a mesh shape (publish_object_geo.py 813-824): starting from
`all_faces - assigned_faces_all`, run the assignment loop over the
object-level shading groups. -/
def facesetAssignments (face_count : ℕ) (assigned_faces_all : Finset ℕ)
    (object_level_sgs : List String) : List (String × Finset ℕ) :=
  convertLoop (Finset.range face_count \ assigned_faces_all) object_level_sgs

/-! ### UI settings of the geometry hook -/

structure GeoUISettings where
  writeFaceSets : Bool
  writeUvs : Bool
  writeUvSets : Bool
  writeColorSets : Bool
deriving DecidableEq

/-- `MayaObjectGeometryPublishPlugin.get_ui_settings` (publish_object_geo.py
143-168): compute the step name from the context (empty when absent), then
under the guard `'TEXTURE' or 'SHADING' in step_name` set the four write
settings to True.  `contextStep` is `context.step` restricted to its
optional name field; `entityType` is `context.entity['type']`, read but
unused by the decision. -/
def get_ui_settings (contextStep : Option (Option String))
    (entityType : Option String) (base : GeoUISettings) : GeoUISettings :=
  let step_name :=
    match contextStep with
    | none => ""
    | some name? => name?.getD ""
  let _entity_type := entityType
  if pyTruthy (texShadingGuard step_name) then
    { base with writeFaceSets := true, writeUvs := true,
                writeUvSets := true, writeColorSets := true }
  else base

/-! ### Hook classes and the lifecycle contract -/

/-- The four lifecycle methods of the framework contract named by the spec. -/
def lifecycleContract : List String := ["accept", "validate", "publish", "finalize"]

/-- Methods defined by `MayaObjectGeometryPublishPlugin`
(publish_object_geo.py 22-446). -/
def geoHookMethodNames : List String :=
  ["description", "settings", "create_settings_widget", "get_ui_settings",
   "item_filters", "accept", "validate", "publish"]

/-- Methods defined by `MayaObjectShaderPublishPlugin`
(publish_shader.py 21-290). -/
def shaderHookMethodNames : List String :=
  ["description", "settings", "item_filters", "accept", "validate", "publish"]

/-- Methods defined by `UploadVersionPlugin` (upload_version.py 22-615). -/
def uploadHookMethodNames : List String :=
  ["icon", "name", "description", "settings", "item_filters", "accept",
   "validate", "publish", "finalize", "_get_version_entity",
   "_get_publish_type", "get_dailies_template", "get_dailies_path"]

/-- Every hook class in the repository with the method names it defines. -/
def hookClassMethodTables : List (String × List String) :=
  [("MayaObjectGeometryPublishPlugin", geoHookMethodNames),
   ("MayaObjectShaderPublishPlugin", shaderHookMethodNames),
   ("UploadVersionPlugin", uploadHookMethodNames)]

/-! ### The upload hook's render branch -/

/-- The module-level names bound in upload_version.py: imports (lines
11-19), the hook base class and the plugin class.  No module-level
functions are defined in this file; in particular `subprocess`, `sys`,
`platform` and `_session_path` are all unbound. -/
def uploadVersionModuleNames : List String :=
  ["os", "glob", "pprint", "sgtk", "six", "mel", "cmds", "HookBaseClass",
   "UploadVersionPlugin"]

/-- The global names the `maya.session.render` branch of
`UploadVersionPlugin.publish` resolves, in evaluation order: the branch
first calls `self.get_dailies_path` whose body begins with
`path = _session_path()` (line 573); had that succeeded, the later lines
would resolve `platform` (line 591), `mel` (line 218), `subprocess`
(line 244) and `sys` (line 253). -/
def uploadRenderBranchLookups : List String :=
  ["_session_path", "platform", "mel", "subprocess", "sys"]

/-- Modelled execution of the `maya.session.render` branch of
`UploadVersionPlugin.publish` (upload_version.py 210-257) up to and
including the ffmpeg subprocess invocation: resolve each global name the
branch needs, in order. -/
def uploadRenderBranch : Except PyError Unit :=
  runNameLookups uploadVersionModuleNames uploadRenderBranchLookups

/-! ### updateConfig.py -/

/-- One remote write performed through the tracking-system API:
`sg.update(entity, id, {field: value})`. -/
structure SgCall where
  entity : String
  id : Nat
  field : String
  value : String
deriving DecidableEq

/-- The descriptor string built at updateConfig.py line 7 from the
environment variables BRANCH and NEWCODE. -/
def descriptorString (branch newcode : String) : String :=
  "sgtk:descriptor:git_branch?branch=" ++ branch ++
  "&path=https://github.com/Dps-CCV/DPS_CONFIG_DEV.git&version=" ++ newcode

/-- `updateConfig.main` (updateConfig.py 1-9): the list of remote writes it
performs, given the two environment variables it reads. -/
def updateConfigMain (branch newcode : String) : List SgCall :=
  [{ entity := "PipelineConfiguration", id := 2542, field := "descriptor",
     value := descriptorString branch newcode }]

/-! ### Concrete inputs used to exercise the embedded operations -/

/-- A session-wide geometry item whose alembic export fails. -/
def geoFailInput : GeoPublishInput where
  itemType := "maya.session.geometries"
  stepName := "MODEL"
  selectionShapes := []
  selectionHead := ""
  taskId := 101
  publishPath := "X:/pub/geo.abc"
  publishFolder := "X:/pub"
  hasAnimation := false
  startFrame := 1
  endFrame := 10
  writeFaceSets := false
  writeUvs := false
  writeUvSets := false
  writeColorSets := false
  exportOk := false
  exportErrMsg := "AbcExport failed"

/-- A session-wide geometry item whose alembic export succeeds. -/
def geoOkInput : GeoPublishInput :=
  { geoFailInput with exportOk := true, taskId := 102 }

/-- A per-object geometry item whose selection yields one mesh shape. -/
def geoBakeInput : GeoPublishInput :=
  { geoFailInput with
      itemType := "maya.session.object_geo"
      stepName := "TEXTURE_A"
      selectionShapes := ["|geo|meshShape"]
      selectionHead := "|geo"
      taskId := 103 }

/-- A shader item whose mayaBinary export fails. -/
def shaderFailInput : ShaderPublishInput where
  taskId := 201
  publishFolder := "X:/pub"
  exportOk := false
  exportErrMsg := "file command failed"

/-- A shader item whose mayaBinary export succeeds. -/
def shaderOkInput : ShaderPublishInput :=
  { shaderFailInput with exportOk := true, taskId := 202 }

/-- A validate run that passes every check. -/
def validateOkInput : GeoValidateInput where
  sessionPath := some "W:/scenes/sh010_v003.ma"
  normalizedPath := "W:/scenes/sh010_v003.ma"
  hasGeometry := true
  collectorPath := "W:/pub/objA_v003.abc"
  missingKeys := []
  appliedPath := "W:/pub/objA_v003.abc"
  versionField := some 3
  baseValidate := true

/-- A validate run on an unsaved session. -/
def validateFailInput : GeoValidateInput :=
  { validateOkInput with sessionPath := none }

/-- The outcome `geoValidate` produces on `validateOkInput`. -/
def validateOkOutcome : GeoValidateOutcome where
  publishName := "objA"
  path := "W:/pub/objA_v003.abc"
  publishPath := "W:/pub/objA_v003.abc"
  publishVersion := some 3
  result := true

/-! ## Helper lemmas -/

theorem texShadingGuard_truthy (s : String) :
    pyTruthy (texShadingGuard s) = true := rfl

theorem bake_resolve_fails :
    pyResolveName publishObjectGeoModuleNames
        "convert_object_level_materials_to_face_sets" =
      .error (.nameError "convert_object_level_materials_to_face_sets") := by
  unfold pyResolveName
  rw [if_neg (by decide)]

theorem bake_nonempty (shapes : List String) (h : shapes ≠ []) :
    bake_facesets_for_selection shapes =
      .error (.nameError "convert_object_level_materials_to_face_sets") := by
  cases shapes with
  | nil => exact absurd rfl h
  | cons a t => simp [bake_facesets_for_selection, bake_resolve_fails]

theorem geoPublish_traces (inp : GeoPublishInput) :
    geoPublish inp =
      if inp.itemType ≠ "maya.session.geometries" then
        (if inp.selectionShapes = [] then
          geoExportTail inp [Effect.ensureFolder inp.publishFolder,
            Effect.selectObject, Effect.bakeCall]
        else
          ([Effect.ensureFolder inp.publishFolder, Effect.selectObject,
            Effect.bakeCall],
            some (.nameError "convert_object_level_materials_to_face_sets")))
      else
        geoExportTail inp [Effect.ensureFolder inp.publishFolder] := by
  by_cases hty : inp.itemType = "maya.session.geometries"
  · simp [geoPublish, hty]
  · by_cases hs : inp.selectionShapes = []
    · simp [geoPublish, hty, hs, texShadingGuard_truthy,
        bake_facesets_for_selection]
    · simp [geoPublish, hty, hs, texShadingGuard_truthy, bake_nonempty _ hs]

theorem convertLoop_empty (l : List String) : convertLoop ∅ l = [] := by
  cases l <;> simp [convertLoop]

/-- Effects a publish method performs before attempting its export. -/
def isPrePhase : Effect → Bool
  | .ensureFolder _ => true
  | .selectObject => true
  | .bakeCall => true
  | .selectShadingGroups => true
  | .logDebug _ => true
  | _ => false

/-! ## Claim theorems -/

theorem prePhase_facts (e : Effect) (h : isPrePhase e = true) :
    isSgUpdate e = false ∧ isExportEffect e = false ∧
    e ≠ Effect.basePublish ∧ (∀ b, e ≠ Effect.runExport b) ∧
    (∀ m, e ≠ Effect.logError m) := by
  cases e <;> simp_all [isPrePhase, isSgUpdate, isExportEffect]

theorem geoExportTail_props (inp : GeoPublishInput) (pre : List Effect)
    (hpre : ∀ e ∈ pre, isPrePhase e = true) :
    ((geoExportTail inp pre).2 = none) ∧
    (inp.exportOk = false →
      Effect.runExport false ∈ (geoExportTail inp pre).1 ∧
      Effect.logError ("Failed to export Geometry: " ++ inp.exportErrMsg) ∈
        (geoExportTail inp pre).1 ∧
      Effect.basePublish ∉ (geoExportTail inp pre).1 ∧
      (∀ e ∈ (geoExportTail inp pre).1, isSgUpdate e = false) ∧
      (geoExportTail inp pre).1.filter isExportEffect = [Effect.runExport false]) ∧
    (inp.exportOk = true →
      Effect.runExport true ∈ (geoExportTail inp pre).1 ∧
      Effect.runExport false ∉ (geoExportTail inp pre).1 ∧
      (geoExportTail inp pre).1.filter isSgUpdate =
        [Effect.sgUpdate "Task" inp.taskId "sg_status_list" "rev"] ∧
      (geoExportTail inp pre).1.filter isExportEffect = [Effect.runExport true]) := by
  have hfilterExp : pre.filter isExportEffect = [] :=
    List.filter_eq_nil_iff.mpr
      (fun a ha => by simp [(prePhase_facts a (hpre a ha)).2.1])
  have hfilterSg : pre.filter isSgUpdate = [] :=
    List.filter_eq_nil_iff.mpr
      (fun a ha => by simp [(prePhase_facts a (hpre a ha)).1])
  have hnoBase : Effect.basePublish ∉ pre := fun hmem =>
    (prePhase_facts _ (hpre _ hmem)).2.2.1 rfl
  have hnoRun : ∀ b, Effect.runExport b ∉ pre := fun b hmem =>
    (prePhase_facts _ (hpre _ hmem)).2.2.2.1 b rfl
  by_cases he : inp.exportOk
  · refine ⟨by simp [geoExportTail, he], fun hfalse => by simp [he] at hfalse, ?_⟩
    intro _
    refine ⟨by simp [geoExportTail, he], ?_, ?_, ?_⟩
    · simp only [geoExportTail, he, if_pos]
      intro hmem
      rcases List.mem_append.mp hmem with hpre2 | htail
      · rcases List.mem_append.mp hpre2 with hl | hr
        · exact hnoRun false hl
        · simp at hr
      · simp at htail
    · simp [geoExportTail, he, List.filter_append, hfilterSg, isSgUpdate]
    · simp [geoExportTail, he, List.filter_append, hfilterExp, isExportEffect]
  · have he2 : inp.exportOk = false := by simpa using he
    refine ⟨by simp [geoExportTail, he2], ?_, fun htrue => by simp [he2] at htrue⟩
    intro _
    refine ⟨by simp [geoExportTail, he2], by simp [geoExportTail, he2], ?_, ?_, ?_⟩
    · simp only [geoExportTail, he2, Bool.false_eq_true, if_neg, if_false]
      intro hmem
      rcases List.mem_append.mp hmem with hpre2 | htail
      · rcases List.mem_append.mp hpre2 with hl | hr
        · exact hnoBase hl
        · simp at hr
      · simp at htail
    · intro e hmem
      simp only [geoExportTail, he2, Bool.false_eq_true, if_neg, if_false] at hmem
      rcases List.mem_append.mp hmem with hpre2 | htail
      · rcases List.mem_append.mp hpre2 with hl | hr
        · exact (prePhase_facts e (hpre e hl)).1
        · simp at hr
          subst hr
          rfl
      · rcases List.mem_cons.mp htail with rfl | htail2
        · rfl
        · simp at htail2
          subst htail2
          rfl
    · simp [geoExportTail, he2, List.filter_append, hfilterExp, isExportEffect]

theorem shaderPublish_props (s : ShaderPublishInput) :
    ((shaderPublish s).2 = none) ∧
    (s.exportOk = false →
      Effect.runExport false ∈ (shaderPublish s).1 ∧
      Effect.logError ("Failed to export Shaders: " ++ s.exportErrMsg) ∈
        (shaderPublish s).1 ∧
      Effect.basePublish ∉ (shaderPublish s).1 ∧
      (∀ e ∈ (shaderPublish s).1, isSgUpdate e = false) ∧
      (shaderPublish s).1.filter isExportEffect = [Effect.runExport false]) ∧
    (s.exportOk = true →
      Effect.runExport true ∈ (shaderPublish s).1 ∧
      Effect.runExport false ∉ (shaderPublish s).1 ∧
      (shaderPublish s).1.filter isSgUpdate =
        [Effect.sgUpdate "Task" s.taskId "sg_status_list" "rev"] ∧
      (shaderPublish s).1.filter isExportEffect = [Effect.runExport true]) := by
  by_cases he : s.exportOk
  · refine ⟨by simp [shaderPublish, he], fun hfalse => by simp [he] at hfalse, ?_⟩
    intro _
    refine ⟨by simp [shaderPublish, he], by simp [shaderPublish, he], ?_, ?_⟩
    · simp [shaderPublish, he, List.filter_append, isSgUpdate]
    · simp [shaderPublish, he, List.filter_append, isExportEffect]
  · have he2 : s.exportOk = false := by simpa using he
    refine ⟨by simp [shaderPublish, he2], ?_, fun htrue => by simp [he2] at htrue⟩
    intro _
    refine ⟨by simp [shaderPublish, he2], by simp [shaderPublish, he2],
      by simp [shaderPublish, he2], ?_, ?_⟩
    · intro e hmem
      simp [shaderPublish, he2] at hmem
      rcases hmem with rfl | rfl | rfl | rfl | rfl <;> rfl
    · simp [shaderPublish, he2, List.filter_append, isExportEffect]

/-- C1: whenever the current selection yields at least one mesh shape,
`bake_facesets_for_selection` raises an unhandled NameError, because it
calls `convert_object_level_materials_to_face_sets` while the module only
defines `_convert_object_level_materials_to_face_sets`; and the geometry
hook's publish reaches this call for every per-object item, since the
guard `'TEXTURE' or 'SHADING' in publisher.context.step['name']` is truthy
for every step name. -/
theorem claim_C1_bake_raises_nameerror :
    (∀ s, pyTruthy (texShadingGuard s) = true) ∧
    "convert_object_level_materials_to_face_sets" ∉ publishObjectGeoModuleNames ∧
    "_convert_object_level_materials_to_face_sets" ∈ publishObjectGeoModuleNames ∧
    (∀ shapes : List String, shapes ≠ [] →
      bake_facesets_for_selection shapes =
        .error (.nameError "convert_object_level_materials_to_face_sets")) ∧
    (∀ inp : GeoPublishInput, inp.itemType ≠ "maya.session.geometries" →
      Effect.bakeCall ∈ (geoPublish inp).1 ∧
      (inp.selectionShapes ≠ [] →
        (geoPublish inp).2 =
          some (.nameError "convert_object_level_materials_to_face_sets"))) := by
  refine ⟨texShadingGuard_truthy, by decide, by decide, bake_nonempty, ?_⟩
  intro inp hty
  rw [geoPublish_traces, if_pos hty]
  by_cases hs : inp.selectionShapes = []
  · rw [if_pos hs]
    refine ⟨?_, fun h => absurd hs h⟩
    by_cases he : inp.exportOk <;> simp [geoExportTail, he]
  · rw [if_neg hs]
    exact ⟨by simp, fun _ => rfl⟩

/-- C1 witness: the guard, the failing name lookup and the publish trace
evaluated on a concrete per-object item with one selected mesh shape. -/
theorem claim_C1_witness :
    pyTruthy (texShadingGuard "ANIMATION") = true ∧
    bake_facesets_for_selection ["|geo|meshShape"] =
      .error (.nameError "convert_object_level_materials_to_face_sets") ∧
    Effect.bakeCall ∈ (geoPublish geoBakeInput).1 ∧
    (geoPublish geoBakeInput).2 =
      some (.nameError "convert_object_level_materials_to_face_sets") := by
  have h := claim_C1_bake_raises_nameerror
  have h5 := h.2.2.2.2 geoBakeInput (by decide)
  exact ⟨h.1 "ANIMATION", h.2.2.2.1 _ (by decide), h5.1, h5.2 (by decide)⟩

theorem pre3_prePhase (f : String) :
    ∀ e ∈ [Effect.ensureFolder f, Effect.selectObject, Effect.bakeCall],
      isPrePhase e = true := by
  intro e he
  simp at he
  rcases he with rfl | rfl | rfl <;> rfl

theorem pre1_prePhase (f : String) :
    ∀ e ∈ [Effect.ensureFolder f], isPrePhase e = true := by
  intro e he
  simp at he
  subst he
  rfl

theorem runExport_mem_exportOk (inp : GeoPublishInput) (pre : List Effect)
    (hpre : ∀ e ∈ pre, isPrePhase e = true) (b : Bool)
    (h : Effect.runExport b ∈ (geoExportTail inp pre).1) : inp.exportOk = b := by
  have hnoRun : ∀ c, Effect.runExport c ∉ pre := fun c hmem =>
    (prePhase_facts _ (hpre _ hmem)).2.2.2.1 c rfl
  by_cases he : inp.exportOk
  · simp [geoExportTail, he] at h
    rcases h with h | h
    · exact absurd h (hnoRun b)
    · rw [he, h]
  · have he2 : inp.exportOk = false := by simpa using he
    simp [geoExportTail, he2] at h
    rcases h with h | h
    · exact absurd h (hnoRun b)
    · rw [he2, h]

theorem geoPublish_runExport_mem (g : GeoPublishInput) (b : Bool)
    (h : Effect.runExport b ∈ (geoPublish g).1) : g.exportOk = b := by
  rw [geoPublish_traces] at h
  by_cases hty : g.itemType ≠ "maya.session.geometries"
  · rw [if_pos hty] at h
    by_cases hs : g.selectionShapes = []
    · rw [if_pos hs] at h
      exact runExport_mem_exportOk g _ (pre3_prePhase g.publishFolder) b h
    · rw [if_neg hs] at h
      simp at h
  · rw [if_neg hty] at h
    exact runExport_mem_exportOk g _ (pre1_prePhase g.publishFolder) b h

theorem shaderPublish_runExport_mem (s : ShaderPublishInput) (b : Bool)
    (h : Effect.runExport b ∈ (shaderPublish s).1) : s.exportOk = b := by
  by_cases he : s.exportOk
  · simp [shaderPublish, he] at h
    rw [he, h]
  · have he2 : s.exportOk = false := by simpa using he
    simp [shaderPublish, he2] at h
    rw [he2, h]

/-- C2: in both the geometry and the shader hook, a run of publish in
which the host export command raises logs the error with a human-readable
message and performs no further publish action of that step: no base-class
publish registration, no remote status update, no retry (the export is
attempted exactly once), and the method returns instead of propagating. -/
theorem claim_C2_export_failure_aborts_step (g : GeoPublishInput)
    (s : ShaderPublishInput) :
    (Effect.runExport false ∈ (geoPublish g).1 →
      Effect.logError ("Failed to export Geometry: " ++ g.exportErrMsg) ∈
        (geoPublish g).1 ∧
      Effect.basePublish ∉ (geoPublish g).1 ∧
      (∀ e ∈ (geoPublish g).1, isSgUpdate e = false) ∧
      (geoPublish g).1.filter isExportEffect = [Effect.runExport false] ∧
      (geoPublish g).2 = none) ∧
    (Effect.runExport false ∈ (shaderPublish s).1 →
      Effect.logError ("Failed to export Shaders: " ++ s.exportErrMsg) ∈
        (shaderPublish s).1 ∧
      Effect.basePublish ∉ (shaderPublish s).1 ∧
      (∀ e ∈ (shaderPublish s).1, isSgUpdate e = false) ∧
      (shaderPublish s).1.filter isExportEffect = [Effect.runExport false] ∧
      (shaderPublish s).2 = none) := by
  constructor
  · intro h
    rw [geoPublish_traces] at h ⊢
    by_cases hty : g.itemType ≠ "maya.session.geometries"
    · rw [if_pos hty] at h ⊢
      by_cases hs : g.selectionShapes = []
      · rw [if_pos hs] at h ⊢
        have hpre : ∀ e ∈ [Effect.ensureFolder g.publishFolder,
            Effect.selectObject, Effect.bakeCall], isPrePhase e = true := by
          intro e he
          simp at he
          rcases he with rfl | rfl | rfl <;> rfl
        have hp := geoExportTail_props g _ hpre
        by_cases he : g.exportOk
        · exact absurd h ((hp.2.2 he).2.1)
        · have he2 : g.exportOk = false := by simpa using he
          have hf := hp.2.1 he2
          exact ⟨hf.2.1, hf.2.2.1, hf.2.2.2.1, hf.2.2.2.2, hp.1⟩
      · rw [if_neg hs] at h
        simp at h
    · rw [if_neg hty] at h ⊢
      have hpre : ∀ e ∈ [Effect.ensureFolder g.publishFolder],
          isPrePhase e = true := by
        intro e he
        simp at he
        subst he
        rfl
      have hp := geoExportTail_props g _ hpre
      by_cases he : g.exportOk
      · exact absurd h ((hp.2.2 he).2.1)
      · have he2 : g.exportOk = false := by simpa using he
        have hf := hp.2.1 he2
        exact ⟨hf.2.1, hf.2.2.1, hf.2.2.2.1, hf.2.2.2.2, hp.1⟩
  · intro h
    have hp := shaderPublish_props s
    by_cases he : s.exportOk
    · exact absurd h ((hp.2.2 he).2.1)
    · have he2 : s.exportOk = false := by simpa using he
      have hf := hp.2.1 he2
      exact ⟨hf.2.1, hf.2.2.1, hf.2.2.2.1, hf.2.2.2.2, hp.1⟩

/-- C2 witness: both hooks evaluated on concrete failing exports. -/
theorem claim_C2_witness :
    Effect.logError ("Failed to export Geometry: " ++ geoFailInput.exportErrMsg) ∈
      (geoPublish geoFailInput).1 ∧
    Effect.basePublish ∉ (geoPublish geoFailInput).1 ∧
    Effect.logError ("Failed to export Shaders: " ++ shaderFailInput.exportErrMsg) ∈
      (shaderPublish shaderFailInput).1 ∧
    Effect.basePublish ∉ (shaderPublish shaderFailInput).1 := by
  have h := claim_C2_export_failure_aborts_step geoFailInput shaderFailInput
  have hg := h.1 (by simp [geoPublish_traces, geoFailInput, geoExportTail])
  have hs := h.2 (by simp [shaderPublish, shaderFailInput])
  exact ⟨hg.1, hg.2.1, hs.1, hs.2.1⟩

/-- C3: in both the geometry and the shader hook, a run of publish in
which the export command succeeds performs exactly one remote update,
setting the Task record's sg_status_list field to "rev", and a run in
which the export fails performs no remote update. -/
theorem claim_C3_success_updates_task_status (g : GeoPublishInput)
    (s : ShaderPublishInput) :
    (Effect.runExport true ∈ (geoPublish g).1 →
      (geoPublish g).1.filter isSgUpdate =
        [Effect.sgUpdate "Task" g.taskId "sg_status_list" "rev"]) ∧
    (Effect.runExport false ∈ (geoPublish g).1 →
      (geoPublish g).1.filter isSgUpdate = []) ∧
    (Effect.runExport true ∈ (shaderPublish s).1 →
      (shaderPublish s).1.filter isSgUpdate =
        [Effect.sgUpdate "Task" s.taskId "sg_status_list" "rev"]) ∧
    (Effect.runExport false ∈ (shaderPublish s).1 →
      (shaderPublish s).1.filter isSgUpdate = []) := by
  have hfilterNone : ∀ (l : List Effect), (∀ e ∈ l, isSgUpdate e = false) →
      l.filter isSgUpdate = [] := by
    intro l hl
    exact List.filter_eq_nil_iff.mpr (fun a ha => by simp [hl a ha])
  refine ⟨?_, ?_, ?_, ?_⟩
  · intro h
    have he : g.exportOk = true := geoPublish_runExport_mem g true h
    rw [geoPublish_traces] at h ⊢
    by_cases hty : g.itemType ≠ "maya.session.geometries"
    · rw [if_pos hty] at h ⊢
      by_cases hs : g.selectionShapes = []
      · rw [if_pos hs]
        exact ((geoExportTail_props g _ (pre3_prePhase g.publishFolder)).2.2
          he).2.2.1
      · rw [if_neg hs] at h
        simp at h
    · rw [if_neg hty]
      exact ((geoExportTail_props g _ (pre1_prePhase g.publishFolder)).2.2
        he).2.2.1
  · intro h
    have he : g.exportOk = false := geoPublish_runExport_mem g false h
    rw [geoPublish_traces]
    by_cases hty : g.itemType ≠ "maya.session.geometries"
    · rw [if_pos hty]
      by_cases hs : g.selectionShapes = []
      · rw [if_pos hs]
        exact hfilterNone _
          ((geoExportTail_props g _ (pre3_prePhase g.publishFolder)).2.1
            he).2.2.2.1
      · rw [if_neg hs]
        rfl
    · rw [if_neg hty]
      exact hfilterNone _
        ((geoExportTail_props g _ (pre1_prePhase g.publishFolder)).2.1
          he).2.2.2.1
  · intro h
    have he : s.exportOk = true := shaderPublish_runExport_mem s true h
    exact ((shaderPublish_props s).2.2 he).2.2.1
  · intro h
    have he : s.exportOk = false := shaderPublish_runExport_mem s false h
    exact hfilterNone _ ((shaderPublish_props s).2.1 he).2.2.2.1

/-- C3 witness: the remote-update lists of both hooks evaluated on
concrete succeeding and failing exports. -/
theorem claim_C3_witness :
    (geoPublish geoOkInput).1.filter isSgUpdate =
      [Effect.sgUpdate "Task" geoOkInput.taskId "sg_status_list" "rev"] ∧
    (geoPublish geoFailInput).1.filter isSgUpdate = [] ∧
    (shaderPublish shaderOkInput).1.filter isSgUpdate =
      [Effect.sgUpdate "Task" shaderOkInput.taskId "sg_status_list" "rev"] ∧
    (shaderPublish shaderFailInput).1.filter isSgUpdate = [] := by
  have h1 := claim_C3_success_updates_task_status geoOkInput shaderOkInput
  have h2 := claim_C3_success_updates_task_status geoFailInput shaderFailInput
  refine ⟨h1.1 ?_, h2.2.1 ?_, h1.2.2.1 ?_, h2.2.2.2 ?_⟩
  · simp [geoPublish_traces, geoOkInput, geoFailInput, geoExportTail]
  · simp [geoPublish_traces, geoFailInput, geoExportTail]
  · simp [shaderPublish, shaderOkInput, shaderFailInput]
  · simp [shaderPublish, shaderFailInput]

/-- C4: before the remote writes performed by publish, the geometry hook's
validate raises in exactly three cases — unsaved session, no
non-intermediate geometry, or work fields missing keys of the publish
template — and otherwise stores the publish path in the item properties
and delegates to the base-class validation. -/
theorem claim_C4_validate_checks (inp : GeoValidateInput) :
    ((∃ e, geoValidate inp = .error e) ↔
      (pyFalsyPath inp.sessionPath = true ∨ inp.hasGeometry = false ∨
        inp.missingKeys ≠ [])) ∧
    (∀ out, geoValidate inp = .ok out →
      out.path = inp.appliedPath ∧ out.publishPath = inp.appliedPath ∧
      out.publishVersion = inp.versionField ∧ out.result = inp.baseValidate) := by
  by_cases h1 : pyFalsyPath inp.sessionPath
  · constructor
    · simp [geoValidate, h1]
    · intro out hout
      simp [geoValidate, h1] at hout
  · have h1f : pyFalsyPath inp.sessionPath = false := by simpa using h1
    by_cases h2 : inp.hasGeometry
    · by_cases h3 : inp.missingKeys = []
      · constructor
        · simp [geoValidate, h1f, h2, h3]
        · intro out hout
          simp [geoValidate, h1f, h2, h3] at hout
          rw [← hout]
          exact ⟨rfl, rfl, rfl, rfl⟩
      · have hie : inp.missingKeys.isEmpty = false := by
          cases hl : inp.missingKeys with
          | nil => exact absurd hl h3
          | cons a t => rfl
        constructor
        · simp [geoValidate, h1f, h2, hie, h3]
        · intro out hout
          simp [geoValidate, h1f, h2, hie] at hout
    · have h2f : inp.hasGeometry = false := by simpa using h2
      constructor
      · simp [geoValidate, h1f, h2f]
      · intro out hout
        simp [geoValidate, h1f, h2f] at hout

/-- C4 witness: validate evaluated on an unsaved session (raises) and on a
fully valid input (stores the template path and delegates). -/
theorem claim_C4_witness :
    (∃ e, geoValidate validateFailInput = .error e) ∧
    validateOkOutcome.path = validateOkInput.appliedPath ∧
    validateOkOutcome.result = validateOkInput.baseValidate := by
  have hfail := (claim_C4_validate_checks validateFailInput).1.mpr
    (Or.inl rfl)
  have hok := (claim_C4_validate_checks validateOkInput).2 validateOkOutcome
    (by rfl)
  exact ⟨hfail, hok.1, hok.2.2.2⟩

/-- C5: the claim describes the intended ffmpeg invocation, but the
`maya.session.render` branch of `UploadVersionPlugin.publish` cannot reach
it: `subprocess`, `sys`, `platform` and `_session_path` are all unbound in
upload_version.py, and the branch raises NameError at the
`_session_path()` call inside `get_dailies_path` before any subprocess is
spawned. -/
theorem claim_C5_render_branch_nameerror :
    uploadVersionModuleNames.contains "subprocess" = false ∧
    uploadVersionModuleNames.contains "sys" = false ∧
    uploadVersionModuleNames.contains "platform" = false ∧
    uploadVersionModuleNames.contains "_session_path" = false ∧
    uploadRenderBranch = .error (.nameError "_session_path") := by
  refine ⟨by decide, by decide, by decide, by decide, ?_⟩
  unfold uploadRenderBranch uploadRenderBranchLookups runNameLookups pyResolveName
  rw [if_neg (by decide)]

/-- C6 counterexample: not every hook class defines all four lifecycle
methods; `MayaObjectGeometryPublishPlugin` defines no `finalize`. -/
theorem claim_C6_counterexample :
    hookClassMethodTables.all
      (fun t => lifecycleContract.all (fun m => t.2.contains m)) = false ∧
    lifecycleContract.all (fun m => geoHookMethodNames.contains m) = false ∧
    lifecycleContract.contains "finalize" = true ∧
    geoHookMethodNames.contains "finalize" = false := by
  decide

/-- C6 amended: every hook class defines `accept`, `validate` and
`publish`; only `UploadVersionPlugin` also defines `finalize`, while the
geometry and shader hooks inherit it from the base class. -/
theorem claim_C6_amended_lifecycle :
    hookClassMethodTables.all
      (fun t => (["accept", "validate", "publish"].all
        (fun m => t.2.contains m))) = true ∧
    uploadHookMethodNames.contains "finalize" = true ∧
    geoHookMethodNames.contains "finalize" = false ∧
    shaderHookMethodNames.contains "finalize" = false := by
  decide

/-- C7 counterexample: on a scene holding a single mesh shape with no
descendants whose inMesh attribute has an incoming connection,
`_geo_has_animation` returns False although the node itself carries the
animation signal the claim describes. -/
theorem claim_C7_counterexample :
    geo_has_animation meshOnlyScene "meshShape" = false ∧
    geo_has_animation_claimed meshOnlyScene "meshShape" = true ∧
    nodeAnimSignal meshOnlyScene "meshShape" = true ∧
    meshOnlyScene.descendants "meshShape" = [] := by
  refine ⟨rfl, ?_, ?_, rfl⟩ <;> decide

/-- C7 amended: `_geo_has_animation` returns True iff the node has at
least one descendant and the node or one of its descendants is an animated
transform or a mesh with an incoming inMesh connection; when the node has
no descendants it returns False regardless of the node itself. -/
theorem claim_C7_amended_geo_has_animation (sc : Scene) (node : String) :
    geo_has_animation sc node =
      (!(sc.descendants node).isEmpty &&
        (node :: sc.descendants node).any (nodeAnimSignal sc)) := by
  unfold geo_has_animation mayaOpt
  by_cases h : (sc.descendants node).isEmpty <;> simp [h]

/-- C7 amended witness: the characterization evaluated on the concrete
one-mesh scene. -/
theorem claim_C7_amended_witness :
    geo_has_animation meshOnlyScene "meshShape" =
      (!(meshOnlyScene.descendants "meshShape").isEmpty &&
        (("meshShape" :: meshOnlyScene.descendants "meshShape").any
          (nodeAnimSignal meshOnlyScene))) :=
  claim_C7_amended_geo_has_animation meshOnlyScene "meshShape"

/-- C8: `updateConfig.main` performs exactly one remote write, the update
of PipelineConfiguration 2542 with the descriptor string concatenated from
BRANCH and NEWCODE, and is deterministic in those two variables. -/
theorem claim_C8_updateConfig_single_write (branch newcode : String) :
    (updateConfigMain branch newcode).length = 1 ∧
    updateConfigMain branch newcode =
      [{ entity := "PipelineConfiguration", id := 2542, field := "descriptor",
         value := "sgtk:descriptor:git_branch?branch=" ++ branch ++
           "&path=https://github.com/Dps-CCV/DPS_CONFIG_DEV.git&version=" ++
           newcode }] ∧
    (∀ b2 n2, branch = b2 → newcode = n2 →
      updateConfigMain branch newcode = updateConfigMain b2 n2) := by
  refine ⟨rfl, rfl, ?_⟩
  rintro b2 n2 rfl rfl
  rfl

/-- C8 witness: the single write evaluated on concrete environment
variables. -/
theorem claim_C8_witness :
    (updateConfigMain "main" "v1.2.3").length = 1 ∧
    updateConfigMain "main" "v1.2.3" = updateConfigMain "main" "v1.2.3" := by
  have h := claim_C8_updateConfig_single_write "main" "v1.2.3"
  exact ⟨h.1, h.2.2 "main" "v1.2.3" rfl rfl⟩

/-- C9: in `_convert_object_level_materials_to_face_sets`, for a mesh
shape with at least one object-level shading group, all faces not covered
by an existing per-face assignment go to the first object-level shading
group, every later one receives no faces, and no already-assigned face is
ever reassigned. -/
theorem claim_C9_first_sg_takes_all_faces (face_count : ℕ)
    (assigned : Finset ℕ) (sg0 : String) (rest : List String) :
    (facesetAssignments face_count assigned (sg0 :: rest) =
      if Finset.range face_count \ assigned = ∅ then []
      else [(sg0, Finset.range face_count \ assigned)]) ∧
    (∀ p ∈ facesetAssignments face_count assigned (sg0 :: rest),
      p.1 = sg0 ∧ p.2 = Finset.range face_count \ assigned ∧
      Disjoint p.2 assigned) := by
  have hloop : facesetAssignments face_count assigned (sg0 :: rest) =
      if Finset.range face_count \ assigned = ∅ then []
      else [(sg0, Finset.range face_count \ assigned)] := by
    unfold facesetAssignments convertLoop
    by_cases h : Finset.range face_count \ assigned = ∅ <;>
      simp [h, sdiff_self, convertLoop_empty]
  refine ⟨hloop, ?_⟩
  intro p hp
  rw [hloop] at hp
  by_cases h : Finset.range face_count \ assigned = ∅
  · rw [if_pos h] at hp
    exact absurd hp (List.not_mem_nil p)
  · rw [if_neg h] at hp
    rcases List.mem_singleton.mp hp with rfl
    exact ⟨rfl, rfl, Finset.sdiff_disjoint⟩

/-- C9 witness: a four-face shape with face 0 already assigned per-face
and two object-level shading groups; the first takes faces 1-3, the second
nothing, and the assignment is disjoint from the per-face set. -/
theorem claim_C9_witness :
    facesetAssignments 4 {0} ["blinn1SG", "lambert2SG"] =
      [("blinn1SG", Finset.range 4 \ {0})] ∧
    Disjoint (Finset.range 4 \ ({0} : Finset ℕ)) {0} := by
  have h := claim_C9_first_sg_takes_all_faces 4 {0} "blinn1SG" ["lambert2SG"]
  have hne : ¬(Finset.range 4 \ ({0} : Finset ℕ) = ∅) := by decide
  have heq : facesetAssignments 4 {0} ["blinn1SG", "lambert2SG"] =
      [("blinn1SG", Finset.range 4 \ {0})] := by rw [h.1, if_neg hne]
  refine ⟨heq, ?_⟩
  have hmem : (("blinn1SG", Finset.range 4 \ ({0} : Finset ℕ))) ∈
      facesetAssignments 4 {0} ["blinn1SG", "lambert2SG"] := by
    rw [heq]
    exact List.mem_singleton_self _
  exact (h.2 _ hmem).2.2

/-- C10: `get_ui_settings` of the geometry hook returns Write Face Sets,
Write Uvs, Write Uv Sets and Write Color Sets all True for every context,
independently of the step name and the entity type, because the condition
`'TEXTURE' or 'SHADING' in step_name` is truthy for every step name. -/
theorem claim_C10_ui_settings_always_true (contextStep : Option (Option String))
    (entityType : Option String) (base : GeoUISettings) :
    (get_ui_settings contextStep entityType base).writeFaceSets = true ∧
    (get_ui_settings contextStep entityType base).writeUvs = true ∧
    (get_ui_settings contextStep entityType base).writeUvSets = true ∧
    (get_ui_settings contextStep entityType base).writeColorSets = true ∧
    (∀ (cs2 : Option (Option String)) (et2 : Option String),
      get_ui_settings contextStep entityType base =
        get_ui_settings cs2 et2 base) := by
  have hall : ∀ (cs : Option (Option String)) (et : Option String),
      get_ui_settings cs et base =
        { base with writeFaceSets := true, writeUvs := true,
                    writeUvSets := true, writeColorSets := true } := by
    intro cs et
    unfold get_ui_settings
    rw [if_pos (texShadingGuard_truthy _)]
  rw [hall contextStep entityType]
  exact ⟨rfl, rfl, rfl, rfl, fun cs2 et2 => by rw [hall cs2 et2]⟩

/-- C10 witness: the four settings evaluated at a concrete MODEL-step
context over all-False base settings. -/
theorem claim_C10_witness :
    (get_ui_settings (some (some "MODEL")) (some "Asset")
      ⟨false, false, false, false⟩).writeFaceSets = true ∧
    (get_ui_settings (some (some "MODEL")) (some "Asset")
      ⟨false, false, false, false⟩).writeUvs = true ∧
    (get_ui_settings (some (some "MODEL")) (some "Asset")
      ⟨false, false, false, false⟩).writeUvSets = true ∧
    (get_ui_settings (some (some "MODEL")) (some "Asset")
      ⟨false, false, false, false⟩).writeColorSets = true := by
  have h := claim_C10_ui_settings_always_true (some (some "MODEL"))
    (some "Asset") ⟨false, false, false, false⟩
  exact ⟨h.1, h.2.1, h.2.2.1, h.2.2.2.1⟩

end DpsConfig
